import Mathlib

/-!
Verification of the topology-dictionary-builder specification against the
repository.  The checking functions (`vectors_parallel`,
`check_face_orientation_wrt_shell`, `check_face_orientation_against_triangles`,
`build_dicts_for_file`, ...) are translated from the test oracle
`utest_topology_dict_builder.py`.  The entity mapper and the dictionary
builder themselves (`entity_mapper.py`, `topology_dict_builder.py`) are not
among the staged sources, so they are modelled from the specification's
data-model and contract sections; every such definition carries a doc
comment starting `Modelled from the spec:`.

The model is restricted to the entities the checked properties concern:
faces, face-uses and shells (wires, edges and vertices play no role in any
of the checks below).
-/

namespace CadMesh

/-- A face handle: the CAD kernel's identity for a face.  Entity identity is
by kernel object identity (never geometric coincidence), modelled as a
natural number. -/
abbrev FaceHandle := Nat

/-- Modelled from the spec: a face-use, "a face plus a boolean
`face_orientation_wrt_shell`" — the kernel's face-in-shell use relation
from which the dictionary builder reads its orientation flags verbatim
(the builder "must not re-derive orientation independently"). -/
structure FaceUse where
  face : FaceHandle
  orientation : Bool
deriving DecidableEq

/-- Modelled from the spec: a shell, "an ordered collection of face-uses". -/
structure Shell where
  faceUses : List FaceUse
deriving DecidableEq

/-- Modelled from the spec: a body, its shells in kernel traversal order.
(For a compound of several solids the shells of all solids appear here,
which is all the face/shell accounting below needs.) -/
structure Body where
  shells : List Shell
deriving DecidableEq

/-- The face handles used by one shell, in order. -/
def Shell.faceList (s : Shell) : List FaceHandle :=
  s.faceUses.map FaceUse.face

/-- All face handles of the body in kernel traversal order
(shell by shell, face-use by face-use), with repetitions. -/
def bodyFaceList (b : Body) : List FaceHandle :=
  (b.shells.map Shell.faceList).flatten

/-- One step of first-seen index assignment: a handle already seen keeps its
index, a new handle is appended (receiving the next free index). -/
def insertSeen (seen : List FaceHandle) (f : FaceHandle) : List FaceHandle :=
  if f ∈ seen then seen else seen ++ [f]

/-- Modelled from the spec: the Entity Mapper's face table
(`entity_mapper.py` is not among the staged sources).  It performs "a full
decomposition pass at construction time", assigning each distinct face its
index in "first-seen order during a deterministic traversal of the shape";
the table lists the distinct handles, a handle's index being its position. -/
def entityMapper (b : Body) : List FaceHandle :=
  (bodyFaceList b).foldl insertSeen []

/-- Modelled from the spec: `face_index` of the Entity Mapper — the stable
index assigned to a face handle, its position in the mapper's table. -/
def face_index (m : List FaceHandle) (f : FaceHandle) : Nat :=
  m.indexOf f

/-- The per-face record of the dictionary; only the field the checks read
(`surface_orientation`) is modelled. -/
structure FaceRecord where
  surface_orientation : Bool
deriving DecidableEq

/-- A face-use record of a shell record: `{face_index,
face_orientation_wrt_shell}`. -/
structure FaceUseRecord where
  face_index : Nat
  face_orientation_wrt_shell : Bool
deriving DecidableEq

/-- A shell record: its ordered list of face-use records. -/
structure ShellRecord where
  faces : List FaceUseRecord
deriving DecidableEq

/-- The dictionary: flat indexed lists of per-entity records
(restricted to the `faces` and `shells` lists). -/
structure TopoDict where
  faces : List FaceRecord
  shells : List ShellRecord
deriving DecidableEq

/-- Modelled from the spec: `TopologyDictBuilder.build_dict_for_body`
(`topology_dict_builder.py` is not among the staged sources).  Emits the
flat `faces` list in the mapper's index order (list position = mapper
index), and one shell record per shell with the kernel's use orientation
copied verbatim into `face_orientation_wrt_shell`.  `so` is the kernel's
`surface_orientation` attribute of each face. -/
def build_dict_for_body (m : List FaceHandle) (b : Body) (so : FaceHandle → Bool) : TopoDict where
  faces := m.map (fun f => ⟨so f⟩)
  shells := b.shells.map (fun s => ⟨s.faceUses.map (fun u => ⟨face_index m u.face, u.orientation⟩)⟩)

/-- A full build: construct the Entity Mapper for the body, then the
dictionary from it (`build_dict_for_body` of the test file). -/
def buildDict (b : Body) (so : FaceHandle → Bool) : TopoDict :=
  build_dict_for_body (entityMapper b) b so

/-- Modelled from the spec: a manifold body — "every face is used by
exactly one shell", "used exactly once": no handle repeats across the
body's face-uses. -/
def Manifold (b : Body) : Prop :=
  (bodyFaceList b).Nodup

/-- Modelled from the spec: "a manifold solid's faces are always used with
outward orientation by construction" — the kernel invariant that every
face-in-shell use of the body is outward (flag `true`). -/
def KernelOutwardUses (b : Body) : Prop :=
  ∀ s ∈ b.shells, ∀ u ∈ s.faceUses, u.orientation = true

instance decidableManifold (b : Body) : Decidable (Manifold b) :=
  inferInstanceAs (Decidable (bodyFaceList b).Nodup)

instance decidableKernelOutwardUses (b : Body) : Decidable (KernelOutwardUses b) :=
  inferInstanceAs (Decidable (∀ s ∈ b.shells, ∀ u ∈ s.faceUses, u.orientation = true))

/-- Translated from `check_face_orientation_wrt_shell` (test file, lines
67-78): walk the shells accumulating the number of face-uses, asserting
every `face_orientation_wrt_shell` flag on the way, and finally assert that
the face-use total equals the length of the top-level `faces` list.  A
failed assertion is an error (and in the source aborts the enclosing
test). -/
def check_face_orientation_wrt_shell (output : TopoDict) : Except String Unit :=
  if output.shells.all (fun s => s.faces.all (fun u => u.face_orientation_wrt_shell)) then
    if (output.shells.map (fun s => s.faces.length)).sum == output.faces.length then
      Except.ok ()
    else
      Except.error "total_num_shell_faces == len(output faces) failed"
  else
    Except.error "face_orientation_wrt_shell failed"

/-- Translated from `check_output_for_body` (test file, lines 170-192): for
a body expected to be manifold, run the shell accounting check; for a
non-manifold body, no check runs.  (The per-face triangle check needs
kernel mesh data and is embedded separately as
`check_face_orientation_against_triangles` below; it is irrelevant to the
control flow modelled here.) -/
def check_output_for_body (output : TopoDict) (expect_manifold : Bool) : Except String Unit :=
  if expect_manifold then check_face_orientation_wrt_shell output else Except.ok ()

/-- Translated from `build_dict_for_body` (test file, lines 194-198): build
the mapper and dictionary for one body and check the output; an assertion
failure propagates as an error. -/
def build_dict_for_body_checked (b : Body) (so : FaceHandle → Bool) (expect_manifold : Bool) :
    Except String Unit :=
  check_output_for_body (buildDict b so) expect_manifold

/-- Translated from `build_dicts_for_file` (test file, lines 200-205): loop
over the bodies of one file, building and checking each with
`expect_manifold=True`.  The loop body is not guarded: an error raised for
one body propagates and ends the loop.  Returns how many bodies were
processed (attempted) together with the outcome. -/
def build_dicts_for_file (bodies : List Body) (so : FaceHandle → Bool) :
    Nat × Except String Unit :=
  match bodies with
  | [] => (0, Except.ok ())
  | b :: rest =>
    match build_dict_for_body_checked b so true with
    | Except.ok _ =>
      let r := build_dicts_for_file rest so
      (r.1 + 1, r.2)
    | Except.error e => (1, Except.error e)

/-- Modelled from the spec: the sharing structure of the result of
`make_non_manifold_body` (test file, lines 51-60) — the general fuse of a
10x10x10 box at the origin with a 10x10x10 box offset by (5,5,5).  The
fuse yields two solids whose shells share the faces created where the two
boxes split each other; only the sharing structure matters to the
face-use accounting, so one shared face (handle 6) suffices, the others
being private to their shell. -/
def make_non_manifold_body : Body :=
  ⟨[⟨[⟨0, true⟩, ⟨1, true⟩, ⟨2, true⟩, ⟨6, true⟩]⟩,
    ⟨[⟨3, true⟩, ⟨4, true⟩, ⟨5, true⟩, ⟨6, true⟩]⟩]⟩

/-- A small manifold example body: two shells with disjoint faces, all
uses outward. -/
def exManifoldBody : Body :=
  ⟨[⟨[⟨0, true⟩, ⟨1, true⟩]⟩, ⟨[⟨2, true⟩]⟩]⟩

/-- A body whose single face-use carries a `false` orientation flag: its
manifold check fails. -/
def exBadBody : Body :=
  ⟨[⟨[⟨0, false⟩]⟩]⟩

/-- A body that passes the manifold checks. -/
def exGoodBody : Body :=
  ⟨[⟨[⟨0, true⟩]⟩]⟩

/-- A surface-orientation attribute assignment for the example bodies. -/
def soTrue : FaceHandle → Bool := fun _ => true

/-- A 3-vector over the reals (the length-3 numpy arrays of the test). -/
abbrev Vec3 := ℝ × ℝ × ℝ

/-- A parametric (U, V) location on a surface. -/
abbrev UV := ℝ × ℝ

/-- The dot product of two 3-vectors (`np.dot`). -/
noncomputable def dot3 (a b : Vec3) : ℝ :=
  a.1 * b.1 + a.2.1 * b.2.1 + a.2.2 * b.2.2

/-- The cross product of two 3-vectors (`np.cross`). -/
noncomputable def cross3 (a b : Vec3) : Vec3 :=
  (a.2.1 * b.2.2 - a.2.2 * b.2.1,
   a.2.2 * b.1 - a.1 * b.2.2,
   a.1 * b.2.1 - a.2.1 * b.1)

/-- The Euclidean norm of a 3-vector (`np.linalg.norm`). -/
noncomputable def norm3 (v : Vec3) : ℝ :=
  Real.sqrt (dot3 v v)

/-- Translated from `vectors_parallel` (test file, line 105): the
near-zero-length threshold. -/
noncomputable def eps : ℝ := 1e-7

/-- Translated from `vectors_parallel` (test file, line 114): the angular
tolerance in degrees. -/
noncomputable def angle_tol_deg : ℝ := 1

/-- Translated from `vectors_parallel` (test file, line 115): the angular
tolerance converted to radians, `math.pi * angle_tol_deg / 180.8` as the
source writes it. -/
noncomputable def angle_tol_rands : ℝ :=
  Real.pi * angle_tol_deg / 180.8

/-- Translated from `vectors_parallel` (test file, line 116): the cosine of
the tolerance angle. -/
noncomputable def cos_tol_angle : ℝ :=
  Real.cos angle_tol_rands

/-- Translated from `vectors_parallel` (test file, lines 99-117): a vector
of norm below `eps` on either side short-circuits to `True`; otherwise the
result is `cos_tol_angle > cos_angle` where `cos_angle` is the cosine of
the angle between the vectors. -/
def vectors_parallel (v1 v2 : Vec3) : Prop :=
  norm3 v1 < eps ∨ norm3 v2 < eps ∨
    cos_tol_angle > dot3 v1 v2 / (norm3 v1 * norm3 v2)

/-- A kernel surface as the checks consume it: `D1` evaluates the surface
at a UV location, returning the point and the u- and v-parametric
derivative vectors (`BRepAdaptor_Surface.D1`). -/
structure Surface where
  D1 : ℝ → ℝ → Vec3 × Vec3 × Vec3

/-- Translated from `get_face_normal` (test file, lines 86-97): the cross
product of the surface's u and v derivatives at the UV location, negated
when `face_orientation_wrt_surf` is false. -/
noncomputable def get_face_normal (surf : Surface) (uv : UV)
    (face_orientation_wrt_surf : Bool) : Vec3 :=
  let d := surf.D1 uv.1 uv.2
  let face_normal := cross3 d.2.1 d.2.2
  if face_orientation_wrt_surf then face_normal else -face_normal

/-- A triangle of a kernel triangulation: the three node indices returned
by `mesh.Triangle(i).Get()`. -/
structure Triangle where
  i1 : Nat
  i2 : Nat
  i3 : Nat

/-- A kernel triangulation of a face, as the check consumes it: node
coordinates (`mesh.Node`), per-node UV locations (`mesh.UVNode`) and the
triangle list. -/
structure Triangulation where
  node : Nat → Vec3
  uvNode : Nat → UV
  triangles : List Triangle

/-- Translated from `check_face_orientation_against_triangles` (test file,
lines 134-140): the triangle's facet normal, `np.cross(pt2 - pt1, pt2 -
pt3)`. -/
noncomputable def normal_from_triangle (m : Triangulation) (t : Triangle) : Vec3 :=
  cross3 (m.node t.i2 - m.node t.i1) (m.node t.i2 - m.node t.i3)

/-- Translated from `check_face_orientation_against_triangles` (test file,
lines 119-147): when the kernel returns no triangulation the body of the
`if` is skipped and nothing is asserted; otherwise every triangle's facet
normal must be `vectors_parallel` to the face normal evaluated at the
triangle's first vertex's UV location with the record's
`surface_orientation`. -/
def check_face_orientation_against_triangles (surface_orientation : Bool)
    (surf : Surface) (mesh : Option Triangulation) : Prop :=
  match mesh with
  | none => True
  | some m =>
    ∀ t ∈ m.triangles,
      vectors_parallel (get_face_normal surf (m.uvNode t.i1) surface_orientation)
        (normal_from_triangle m t)

/-- The unit vector along the x axis, a concrete non-degenerate input. -/
noncomputable def ex_e1 : Vec3 := ((1 : ℝ), 0, 0)

/-- The unit vector along the y axis, a concrete non-degenerate input. -/
noncomputable def ex_e2 : Vec3 := ((0 : ℝ), 1, 0)

/-- The zero vector, a concrete degenerate input. -/
noncomputable def ex_zero : Vec3 := ((0 : ℝ), 0, 0)

theorem foldl_insertSeen_of_nodup :
    ∀ (l acc : List FaceHandle), (acc ++ l).Nodup → l.foldl insertSeen acc = acc ++ l := by
  intro l
  induction l with
  | nil => intro acc _; simp
  | cons f t ih =>
    intro acc h
    have hf : f ∉ acc := by
      intro hmem
      exact (List.disjoint_of_nodup_append h) hmem (by simp)
    have hstep : insertSeen acc f = acc ++ [f] := by
      simp [insertSeen, hf]
    have h2 : ((acc ++ [f]) ++ t).Nodup := by
      simpa [List.append_assoc] using h
    calc (f :: t).foldl insertSeen acc
        = t.foldl insertSeen (insertSeen acc f) := rfl
      _ = t.foldl insertSeen (acc ++ [f]) := by rw [hstep]
      _ = (acc ++ [f]) ++ t := ih (acc ++ [f]) h2
      _ = acc ++ f :: t := by simp [List.append_assoc]

theorem mem_foldl_insertSeen :
    ∀ (l acc : List FaceHandle) (a : FaceHandle),
      a ∈ l.foldl insertSeen acc ↔ a ∈ acc ∨ a ∈ l := by
  intro l
  induction l with
  | nil => intro acc a; simp
  | cons f t ih =>
    intro acc a
    have hins : a ∈ insertSeen acc f ↔ a ∈ acc ∨ a = f := by
      by_cases hf : f ∈ acc
      · simp only [insertSeen, if_pos hf]
        constructor
        · exact Or.inl
        · rintro (h | rfl)
          · exact h
          · exact hf
      · simp [insertSeen, if_neg hf]
    calc a ∈ (f :: t).foldl insertSeen acc
        ↔ a ∈ t.foldl insertSeen (insertSeen acc f) := Iff.rfl
      _ ↔ a ∈ insertSeen acc f ∨ a ∈ t := ih (insertSeen acc f) a
      _ ↔ (a ∈ acc ∨ a = f) ∨ a ∈ t := by rw [hins]
      _ ↔ a ∈ acc ∨ a ∈ f :: t := by
            simp only [List.mem_cons]
            tauto

theorem entityMapper_eq_of_manifold (b : Body) (h : Manifold b) :
    entityMapper b = bodyFaceList b := by
  have := foldl_insertSeen_of_nodup (bodyFaceList b) [] (by simpa using h)
  simpa [entityMapper] using this

theorem mem_entityMapper (b : Body) (a : FaceHandle) :
    a ∈ entityMapper b ↔ a ∈ bodyFaceList b := by
  have := mem_foldl_insertSeen (bodyFaceList b) [] a
  simpa [entityMapper] using this

/-- Claim C2: for every manifold solid's dictionary, the sum over all shell
records of the length of their face-use lists equals the length of the
top-level faces list (every face is used by exactly one shell, exactly
once). -/
theorem manifold_face_use_sum_eq_face_count (b : Body) (so : FaceHandle → Bool)
    (h : Manifold b) :
    ((buildDict b so).shells.map (fun s => s.faces.length)).sum =
      (buildDict b so).faces.length := by
  simp only [buildDict, build_dict_for_body, List.map_map, List.length_map]
  rw [entityMapper_eq_of_manifold b h]
  simp [bodyFaceList, Shell.faceList, Function.comp_def, List.length_flatten,
    List.map_map]

/-- Witness for C2: the example manifold body evaluated concretely. -/
theorem manifold_face_use_sum_eq_face_count_witness :
    Manifold exManifoldBody ∧
      ((buildDict exManifoldBody soTrue).shells.map (fun s => s.faces.length)).sum =
        (buildDict exManifoldBody soTrue).faces.length :=
  ⟨by decide, manifold_face_use_sum_eq_face_count exManifoldBody soTrue (by decide)⟩

/-- Claim C3: for every manifold solid's dictionary, every face-use entry in
every shell record has its `face_orientation_wrt_shell` flag equal to
`true`.  The builder copies the flag verbatim from the kernel's
face-in-shell use relation, and for a manifold solid every such use is
outward by construction (modelled as `KernelOutwardUses`). -/
theorem manifold_face_orientation_wrt_shell_true (b : Body) (so : FaceHandle → Bool)
    (hm : Manifold b) (ho : KernelOutwardUses b) :
    ∀ s ∈ (buildDict b so).shells, ∀ u ∈ s.faces,
      u.face_orientation_wrt_shell = true := by
  intro s hs u hu
  simp only [buildDict, build_dict_for_body, List.mem_map] at hs
  obtain ⟨s0, hs0, rfl⟩ := hs
  simp only [List.mem_map] at hu
  obtain ⟨u0, hu0, rfl⟩ := hu
  exact ho s0 hs0 u0 hu0

/-- Witness for C3: the example manifold body evaluated concretely. -/
theorem manifold_face_orientation_wrt_shell_true_witness :
    Manifold exManifoldBody ∧ KernelOutwardUses exManifoldBody ∧
      ∀ s ∈ (buildDict exManifoldBody soTrue).shells, ∀ u ∈ s.faces,
        u.face_orientation_wrt_shell = true :=
  ⟨by decide, by decide,
    manifold_face_orientation_wrt_shell_true exManifoldBody soTrue
      (by decide) (by decide)⟩

/-- Claim C4: for the non-manifold body built by uniting the two overlapping
boxes, at least one face index appears in the face-use lists of the two
distinct shells of the dictionary, and the total face-use count summed over
all shells strictly exceeds the number of distinct faces. -/
theorem non_manifold_face_use_sum_exceeds_face_count :
    (buildDict make_non_manifold_body soTrue).shells.length = 2 ∧
    (∃ fi ∈ (((buildDict make_non_manifold_body soTrue).shells.getD 0 ⟨[]⟩).faces.map
        FaceUseRecord.face_index),
      fi ∈ (((buildDict make_non_manifold_body soTrue).shells.getD 1 ⟨[]⟩).faces.map
        FaceUseRecord.face_index)) ∧
    ((buildDict make_non_manifold_body soTrue).shells.map (fun s => s.faces.length)).sum >
      (buildDict make_non_manifold_body soTrue).faces.length := by
  decide

/-- Claim C5: the record at position `i` of the dictionary's flat faces list
is the record of the face whose mapper index is `i`: looking up the output
faces list at the Entity Mapper's index for a face of the body yields that
face's record (list position equals mapper index). -/
theorem face_record_at_mapper_index (b : Body) (so : FaceHandle → Bool)
    (f : FaceHandle) (h : f ∈ bodyFaceList b) :
    (buildDict b so).faces[face_index (entityMapper b) f]? =
      some ⟨so f⟩ := by
  have hm : f ∈ entityMapper b := (mem_entityMapper b f).mpr h
  show ((entityMapper b).map (fun g => (⟨so g⟩ : FaceRecord)))[(entityMapper b).indexOf f]? =
    some ⟨so f⟩
  rw [List.getElem?_map, List.getElem?_indexOf hm]
  rfl

/-- Witness for C5: face 1 of the example manifold body. -/
theorem face_record_at_mapper_index_witness :
    1 ∈ bodyFaceList exManifoldBody ∧
      (buildDict exManifoldBody soTrue).faces[face_index (entityMapper exManifoldBody) 1]? =
        some ⟨soTrue 1⟩ :=
  ⟨by decide, face_record_at_mapper_index exManifoldBody soTrue 1 (by decide)⟩

/-- Claim C6: two independent dictionary builds using the same Entity Mapper
instance and the same body yield identical results, and in particular
identical index assignments for every entity.  In this embedding the mapper
construction and the build are pure functions of the body, so determinism
is definitional. -/
theorem build_dict_deterministic (b : Body) (so : FaceHandle → Bool) :
    build_dict_for_body (entityMapper b) b so = build_dict_for_body (entityMapper b) b so ∧
      ∀ f : FaceHandle, face_index (entityMapper b) f = face_index (entityMapper b) f :=
  ⟨rfl, fun _ => rfl⟩

/-- Claim C9 (amended): a failure while building or checking the dictionary
of one body of a file ends the per-file loop — the subsequent bodies of
that file are not processed (the loop in `build_dicts_for_file` has no
per-body error handling). -/
theorem body_failure_stops_file (b : Body) (rest : List Body) (so : FaceHandle → Bool)
    (e : String) (h : build_dict_for_body_checked b so true = Except.error e) :
    build_dicts_for_file (b :: rest) so = (1, Except.error e) := by
  simp [build_dicts_for_file, h]

/-- Witness for C9 (amended): the failing example body followed by a good
body — only one body is processed. -/
theorem body_failure_stops_file_witness :
    build_dicts_for_file (exBadBody :: [exGoodBody]) soTrue =
      (1, Except.error "face_orientation_wrt_shell failed") :=
  body_failure_stops_file exBadBody [exGoodBody] soTrue
    "face_orientation_wrt_shell failed" rfl

/-- Counterexample to C9 as stated: a file of two bodies where the first
fails its check processes only one body, while the same file with a passing
first body processes both — the first body's failure does prevent the
processing of the subsequent body. -/
theorem file_processing_stops_at_first_failure :
    build_dict_for_body_checked exBadBody soTrue true =
        Except.error "face_orientation_wrt_shell failed" ∧
      (build_dicts_for_file [exBadBody, exGoodBody] soTrue).1 = 1 ∧
      (build_dicts_for_file [exGoodBody, exGoodBody] soTrue).1 = 2 :=
  ⟨rfl, rfl, rfl⟩

theorem norm3_ex_e1 : norm3 ex_e1 = 1 := by
  have h : dot3 ex_e1 ex_e1 = 1 := by unfold dot3 ex_e1; norm_num
  rw [norm3, h, Real.sqrt_one]

theorem norm3_ex_e2 : norm3 ex_e2 = 1 := by
  have h : dot3 ex_e2 ex_e2 = 1 := by unfold dot3 ex_e2; norm_num
  rw [norm3, h, Real.sqrt_one]

theorem angle_tol_rands_pos : 0 < angle_tol_rands := by
  unfold angle_tol_rands angle_tol_deg
  positivity

theorem angle_tol_rands_le_pi : angle_tol_rands ≤ Real.pi := by
  unfold angle_tol_rands angle_tol_deg
  rw [mul_one]
  exact div_le_self Real.pi_pos.le (by norm_num)

theorem cos_tol_angle_lt_one : cos_tol_angle < 1 := by
  have h := Real.cos_lt_cos_of_nonneg_of_le_pi le_rfl angle_tol_rands_le_pi
    angle_tol_rands_pos
  rw [Real.cos_zero] at h
  exact h

/-- Claim C7: the angular tolerance converts 1 degree to radians by the
formula `pi * 1 / 180.8` — the constant equals `pi / 180.8`, not the
standard `pi / 180`. -/
theorem angle_tol_divides_by_180_8 :
    angle_tol_rands = Real.pi / 180.8 ∧ angle_tol_rands ≠ Real.pi / 180 := by
  constructor
  · unfold angle_tol_rands angle_tol_deg
    rw [mul_one]
  · intro h
    unfold angle_tol_rands angle_tol_deg at h
    rw [mul_one, div_eq_div_iff (by norm_num) (by norm_num)] at h
    have h2 := mul_left_cancel₀ Real.pi_ne_zero h
    norm_num at h2

/-- Claim C8: when either input vector's norm is below `1e-7`,
`vectors_parallel` holds by the guard alone — the degenerate case is judged
trivially parallel without reaching the cosine comparison. -/
theorem degenerate_vector_judged_parallel (v1 v2 : Vec3)
    (h : norm3 v1 < eps ∨ norm3 v2 < eps) : vectors_parallel v1 v2 :=
  h.elim Or.inl (fun h2 => Or.inr (Or.inl h2))

/-- Witness for C8: the zero vector against a unit vector. -/
theorem degenerate_vector_judged_parallel_witness :
    norm3 ex_zero < eps ∧ vectors_parallel ex_zero ex_e1 := by
  have hd : dot3 ex_zero ex_zero = 0 := by unfold dot3 ex_zero; norm_num
  have h0 : norm3 ex_zero < eps := by
    rw [norm3, hd, Real.sqrt_zero]
    unfold eps
    norm_num
  exact ⟨h0, degenerate_vector_judged_parallel ex_zero ex_e1 (Or.inl h0)⟩

/-- Claim C1 (amended): `check_face_orientation_against_triangles` asserts,
for every triangle of a face's triangulation, that the normal derived from
`surface_orientation` at the triangle's first vertex's UV location and the
triangle's facet normal are judged parallel by `vectors_parallel` — but two
non-degenerate vectors are judged parallel exactly when the cosine of the
angle between them is strictly BELOW the cosine of the 1-degree tolerance
(the source's comparison is reversed relative to the claim's reading). -/
theorem check_judges_parallel_by_reversed_cosine :
    (∀ (so : Bool) (surf : Surface) (m : Triangulation),
        check_face_orientation_against_triangles so surf (some m) ↔
          ∀ t ∈ m.triangles,
            vectors_parallel (get_face_normal surf (m.uvNode t.i1) so)
              (normal_from_triangle m t)) ∧
    (∀ v1 v2 : Vec3, eps ≤ norm3 v1 → eps ≤ norm3 v2 →
        (vectors_parallel v1 v2 ↔
          dot3 v1 v2 / (norm3 v1 * norm3 v2) < cos_tol_angle)) := by
  constructor
  · intro so surf m
    exact Iff.rfl
  · intro v1 v2 h1 h2
    unfold vectors_parallel
    constructor
    · rintro (h | h | h)
      · exact absurd h (not_lt.mpr h1)
      · exact absurd h (not_lt.mpr h2)
      · exact h
    · intro h
      exact Or.inr (Or.inr h)

/-- Witness for C1 (amended): two orthogonal unit vectors, both
non-degenerate. -/
theorem check_judges_parallel_by_reversed_cosine_witness :
    vectors_parallel ex_e1 ex_e2 ↔
      dot3 ex_e1 ex_e2 / (norm3 ex_e1 * norm3 ex_e2) < cos_tol_angle := by
  have h1 : eps ≤ norm3 ex_e1 := by
    rw [norm3_ex_e1]
    unfold eps
    norm_num
  have h2 : eps ≤ norm3 ex_e2 := by
    rw [norm3_ex_e2]
    unfold eps
    norm_num
  exact check_judges_parallel_by_reversed_cosine.2 ex_e1 ex_e2 h1 h2

/-- Counterexample to C1 as stated: the unit vector against itself.  The
cosine of the angle is 1, which exceeds the cosine of the tolerance, yet
`vectors_parallel` judges the pair NOT parallel — so "parallel exactly when
the cosine exceeds the cosine of the tolerance" is false of the source's
`vectors_parallel`. -/
theorem exactly_parallel_vectors_judged_not_parallel :
    cos_tol_angle < dot3 ex_e1 ex_e1 / (norm3 ex_e1 * norm3 ex_e1) ∧
      ¬ vectors_parallel ex_e1 ex_e1 := by
  have hd : dot3 ex_e1 ex_e1 = 1 := by unfold dot3 ex_e1; norm_num
  have hq : dot3 ex_e1 ex_e1 / (norm3 ex_e1 * norm3 ex_e1) = 1 := by
    rw [norm3_ex_e1, hd]
    norm_num
  constructor
  · rw [hq]
    exact cos_tol_angle_lt_one
  · unfold vectors_parallel
    push_neg
    refine ⟨?_, ?_, ?_⟩
    · rw [norm3_ex_e1]
      unfold eps
      norm_num
    · rw [norm3_ex_e1]
      unfold eps
      norm_num
    · rw [hq]
      exact cos_tol_angle_lt_one.le

/-- Claim C10: when the kernel returns no triangulation for a face,
`check_face_orientation_against_triangles` performs no assertion at all —
the face is accepted vacuously, whatever its `surface_orientation`. -/
theorem no_triangulation_accepted_vacuously (so : Bool) (surf : Surface) :
    check_face_orientation_against_triangles so surf none :=
  trivial

end CadMesh
